import Mathlib

/-!
Shallow embedding of the turn-processing flow of `src/app.py`
(a Streamlit chat application wrapping a LangChain ReAct agent).

The embedding models:
  * the tool registry (`initialize_tools`),
  * the agent factory (`create_agent`), with an explicit environment of
    possible failures of its fallible construction steps,
  * the turn controller (the chat-input handler), as a pure function from
    the turn's inputs and the current message list to the new message list
    plus the sequence of UI displays (writes, warnings, errors) emitted,
  * the "Clear Chat History" handler.
-/

namespace App

/-- Role tag of a chat message (`"user"` / `"assistant"` in `st.session_state.messages`). -/
inductive Role where
  | user
  | assistant
  deriving DecidableEq

/-- One entry of `st.session_state.messages`: `{"role": ..., "content": ...}`. -/
structure Message where
  role : Role
  content : String
  deriving DecidableEq

/-- UI output events: `st.write`, `st.warning`, `st.error`. -/
inductive Display where
  | write (s : String)
  | warning (s : String)
  | error (s : String)
  deriving DecidableEq

/-- Warning text shown when no API key is present (`app.py` line 145). -/
def api_key_warning : String :=
  "Please enter your Groq API key in the sidebar to continue."

/-- Error text shown when the invocation result has no `"output"` key (`app.py` line 176). -/
def no_output_error : String := "No output received from agent"

/-- Warning text suggesting a different model (`app.py` line 184). -/
def model_suggestion : String :=
  "The selected model may be deprecated. Try selecting a different model from the sidebar."

/-- Seed transcript created at session start (`app.py` lines 123-126). -/
def initial_messages : List Message :=
  [⟨Role.assistant,
    "Hi, I'm a knowledge assistant who can search Wikipedia and Arxiv. How can I help you learn something new?"⟩]

/-- Transcript installed by the "Clear Chat History" button (`app.py` lines 98-102). -/
def clear_messages : List Message :=
  [⟨Role.assistant,
    "Hi, I'm a knowledge assistant who can search Wikipedia and Arxiv. How can I help you?"⟩]

/-- The "Clear Chat History" handler: replaces the transcript wholesale. -/
def clear_chat_history (_ : List Message) : List Message := clear_messages

/-- Configuration of an `ArxivAPIWrapper` / `WikipediaAPIWrapper`. -/
structure APIWrapperConfig where
  top_k_results : Nat
  doc_content_chars_max : Nat
  deriving DecidableEq

/-- Which external search backend a tool wraps. -/
inductive ToolBackend where
  | arxiv
  | wikipedia
  deriving DecidableEq

/-- A constructed query tool (`ArxivQueryRun` / `WikipediaQueryRun`). -/
structure ToolConfig where
  backend : ToolBackend
  api_wrapper : APIWrapperConfig
  deriving DecidableEq

/-- Tool registry (`app.py` lines 25-36): the Arxiv tool then the Wikipedia tool,
each with `top_k_results=1` and `doc_content_chars_max=200`. -/
def initialize_tools : List ToolConfig :=
  let arxiv_wrapper : APIWrapperConfig := { top_k_results := 1, doc_content_chars_max := 200 }
  let arxiv : ToolConfig := { backend := ToolBackend.arxiv, api_wrapper := arxiv_wrapper }
  let api_wrapper : APIWrapperConfig := { top_k_results := 1, doc_content_chars_max := 200 }
  let wiki : ToolConfig := { backend := ToolBackend.wikipedia, api_wrapper := api_wrapper }
  [arxiv, wiki]

/-- Configuration passed to `ChatGroq` (`app.py` lines 41-46). -/
structure ChatGroqConfig where
  groq_api_key : String
  model_name : String
  streaming : Bool
  temperature : ℚ
  deriving DecidableEq

/-- Result of `create_react_agent(llm, tools, react_prompt)` (`app.py` line 54). -/
structure ReactAgent where
  llm : ChatGroqConfig
  tools : List ToolConfig
  prompt_id : String
  deriving DecidableEq

/-- Configuration of the `AgentExecutor` built at `app.py` lines 55-61. -/
structure AgentExecutorConfig where
  agent : ReactAgent
  tools : List ToolConfig
  verbose : Bool
  handle_parsing_errors : Bool
  max_iterations : Nat
  deriving DecidableEq

/-- Environment of the fallible construction steps inside `create_agent`'s `try` block:
each field is `some e` when that step raises an exception with text `e`, `none` when
it succeeds. -/
structure BuildEnv where
  chatGroqErr : Option String
  toolsErr : Option String
  hubPullErr : Option String
  reactAgentErr : Option String
  executorErr : Option String
  deriving DecidableEq

/-- The executor configuration produced when every construction step succeeds. -/
def built_config (api_key model_choice : String) : AgentExecutorConfig :=
  let llm : ChatGroqConfig :=
    { groq_api_key := api_key, model_name := model_choice, streaming := true,
      temperature := 1/10 }
  let tools := initialize_tools
  let agent : ReactAgent := { llm := llm, tools := tools, prompt_id := "hwchase17/react" }
  { agent := agent, tools := tools, verbose := true, handle_parsing_errors := true,
    max_iterations := 5 }

/-- Body of `create_agent`'s `try` block: performs each construction step in order,
propagating the first exception. -/
def build_body (api_key model_choice : String) (env : BuildEnv) :
    Except String AgentExecutorConfig :=
  match env.chatGroqErr with
  | some e => Except.error e
  | none =>
    match env.toolsErr with
    | some e => Except.error e
    | none =>
      match env.hubPullErr with
      | some e => Except.error e
      | none =>
        match env.reactAgentErr with
        | some e => Except.error e
        | none =>
          match env.executorErr with
          | some e => Except.error e
          | none => Except.ok (built_config api_key model_choice)

/-- Agent factory (`app.py` lines 38-66): wraps `build_body` in a catch-all handler
that displays `st.error(f"Error creating agent: {str(e)}")` and returns `None`. -/
def create_agent (api_key model_choice : String) (env : BuildEnv) :
    Option AgentExecutorConfig × List Display :=
  match build_body api_key model_choice env with
  | Except.ok cfg => (some cfg, [])
  | Except.error e => (none, [Display.error ("Error creating agent: " ++ e)])

/-- Whether every construction step of `create_agent` succeeds in `env`. -/
def build_succeeds (env : BuildEnv) : Bool :=
  env.chatGroqErr.isNone && env.toolsErr.isNone && env.hubPullErr.isNone &&
    env.reactAgentErr.isNone && env.executorErr.isNone

/-- Whether `needle` is an initial segment of `hay` (character lists). -/
def leadsWith : List Char → List Char → Bool
  | [], _ => true
  | _ :: _, [] => false
  | a :: as, b :: bs => a == b && leadsWith as bs

/-- Whether `needle` occurs as a contiguous segment of the second list. -/
def containsSub (needle : List Char) : List Char → Bool
  | [] => needle.isEmpty
  | c :: t => leadsWith needle (c :: t) || containsSub needle t

/-- Python's `needle in hay` on strings. -/
def strHas (needle hay : String) : Bool :=
  containsSub needle.toList hay.toList

/-- The keyword test at `app.py` line 183:
`"decommissioned" in str(e).lower() or "deprecated" in str(e).lower()`
(lower-casing modelled character-wise). -/
def deprecation_keyword (e : String) : Bool :=
  let low := e.toList.map Char.toLower
  containsSub "decommissioned".toList low || containsSub "deprecated".toList low

/-- Outcome of `agent_executor.invoke({"input": prompt}, ...)`: either it returns a
response dictionary (modelled as an association list) or it raises an exception
whose `str(e)` is the given text. -/
inductive InvokeOutcome where
  | returns (response : List (String × String))
  | raises (e : String)
  deriving DecidableEq

/-- Inputs determining one turn of the chat-input handler (`app.py` lines 134-189):
the submitted prompt, the sidebar API key (empty string when absent, matching
Python's falsiness test `if not api_key`), the selected model, the behaviour of the
agent-construction steps, and the behaviour of the agent invocation. -/
structure TurnInput where
  prompt : String
  api_key : String
  model_name : String
  env : BuildEnv
  invoke : InvokeOutcome
  deriving DecidableEq

/-- The chat-input handler (`app.py` lines 134-189) as a pure function: given the
turn's inputs and the current `st.session_state.messages`, returns the new message
list and the UI displays emitted during the turn. The user message is appended
before the credential check; the credential check aborts with a warning; otherwise
the agent is constructed and invoked, and the answer, the no-output error, or the
exception error is handled as in the source. -/
def handle_turn (t : TurnInput) (messages : List Message) :
    List Message × List Display :=
  let messages1 := messages ++ [⟨Role.user, t.prompt⟩]
  if t.api_key = "" then
    (messages1, [Display.write t.prompt, Display.warning api_key_warning])
  else
    match create_agent t.api_key t.model_name t.env with
    | (some _, agentDisp) =>
      match t.invoke with
      | InvokeOutcome.returns response =>
        match response.lookup "output" with
        | some answer =>
          (messages1 ++ [⟨Role.assistant, answer⟩],
            Display.write t.prompt :: agentDisp ++ [Display.write answer])
        | none =>
          (messages1, Display.write t.prompt :: agentDisp ++ [Display.error no_output_error])
      | InvokeOutcome.raises e =>
        let error_msg := "An error occurred: " ++ e
        let extra :=
          if deprecation_keyword e then [Display.warning model_suggestion] else []
        (messages1 ++ [⟨Role.assistant, error_msg⟩],
          Display.write t.prompt :: agentDisp ++ [Display.error error_msg] ++ extra)
    | (none, agentDisp) => (messages1, Display.write t.prompt :: agentDisp)

/-- Fold of `handle_turn` over a list of turns, threading the message list. -/
def run_turns (ts : List TurnInput) (messages : List Message) : List Message :=
  match ts with
  | [] => messages
  | t :: rest => run_turns rest (handle_turn t messages).1

/-- A turn whose invocation either returns an answer or raises an exception
(credential present and agent construction succeeding): exactly the turns that
append an assistant message alongside the user message. -/
def completes_with_message (t : TurnInput) : Bool :=
  t.api_key != "" && build_succeeds t.env &&
    (match t.invoke with
     | InvokeOutcome.returns r => (r.lookup "output").isSome
     | InvokeOutcome.raises _ => true)

/-- A turn that ends with a genuine answer written to the transcript. -/
def turn_answers (t : TurnInput) : Bool :=
  t.api_key != "" && build_succeeds t.env &&
    (match t.invoke with
     | InvokeOutcome.returns r => (r.lookup "output").isSome
     | InvokeOutcome.raises _ => false)

/-- Environment in which every construction step succeeds. -/
def env_ok : BuildEnv := ⟨none, none, none, none, none⟩

/-- Environment in which the `ChatGroq` constructor raises `"boom"`. -/
def env_chatgroq_fail : BuildEnv := ⟨some "boom", none, none, none, none⟩

/-- Concrete turn: no credential. -/
def t_c1 : TurnInput :=
  ⟨"What is quantum entanglement?", "", "llama-3.3-70b-versatile", env_ok,
    InvokeOutcome.returns []⟩

/-- Concrete turn: credential present, invocation returns an empty dictionary
(no `"output"` key). -/
def t_c2 : TurnInput :=
  ⟨"q2", "key", "llama-3.3-70b-versatile", env_ok, InvokeOutcome.returns []⟩

/-- Concrete turn: credential present, invocation raises a decommission-flavoured
exception. -/
def t_c3 : TurnInput :=
  ⟨"q3", "key", "llama-3.3-70b-versatile", env_ok,
    InvokeOutcome.raises "model decommissioned"⟩

/-- Concrete turn: credential present, invocation returns a dictionary without an
`"output"` key. -/
def t_c5 : TurnInput :=
  ⟨"q5", "key", "llama-3.3-70b-versatile", env_ok,
    InvokeOutcome.returns [("answer", "x")]⟩

/-- Concrete turn: credential present, invocation returns an answer. -/
def t_c5b : TurnInput :=
  ⟨"q5b", "key", "llama-3.3-70b-versatile", env_ok,
    InvokeOutcome.returns [("output", "42")]⟩

/-- Concrete turn: credential present, agent construction fails. -/
def t_c9 : TurnInput :=
  ⟨"q9", "key", "llama-3.3-70b-versatile", env_chatgroq_fail, InvokeOutcome.returns []⟩

/-- Concrete turn: credential present, invocation raises `"boom"`. -/
def t_c10 : TurnInput :=
  ⟨"q10", "key", "llama-3.3-70b-versatile", env_ok, InvokeOutcome.raises "boom"⟩

/-- When every construction step succeeds, `build_body` returns the built
configuration. -/
theorem build_body_of_succeeds (k m : String) (env : BuildEnv)
    (h : build_succeeds env = true) :
    build_body k m env = Except.ok (built_config k m) := by
  obtain ⟨a, b, c, d, e⟩ := env
  simp only [build_succeeds, Bool.and_eq_true, Option.isNone_iff_eq_none] at h
  obtain ⟨⟨⟨⟨ha, hb⟩, hc⟩, hd⟩, he⟩ := h
  subst ha hb hc hd he
  rfl

/-- When every construction step succeeds, `create_agent` returns the built
configuration and emits no display. -/
theorem create_agent_of_succeeds (k m : String) (env : BuildEnv)
    (h : build_succeeds env = true) :
    create_agent k m env = (some (built_config k m), []) := by
  unfold create_agent
  rw [build_body_of_succeeds k m env h]

/-- When some construction step raises `e`, `create_agent` returns `none` and
displays the construction error. -/
theorem create_agent_of_err (k m : String) (env : BuildEnv) (e : String)
    (h : build_body k m env = Except.error e) :
    create_agent k m env = (none, [Display.error ("Error creating agent: " ++ e)]) := by
  unfold create_agent
  rw [h]

/-- Only the built configuration can come out of `build_body`. -/
theorem build_body_ok_eq (k m : String) (env : BuildEnv) (c : AgentExecutorConfig)
    (h : build_body k m env = Except.ok c) : c = built_config k m := by
  obtain ⟨a, b, d, r, x⟩ := env
  cases a <;> cases b <;> cases d <;> cases r <;> cases x <;> simp_all [build_body]

/-- Every run of `build_body` either returns the built configuration or an error. -/
theorem build_body_cases (k m : String) (env : BuildEnv) :
    build_body k m env = Except.ok (built_config k m) ∨
      ∃ e, build_body k m env = Except.error e := by
  obtain ⟨a, b, d, r, x⟩ := env
  cases a <;> cases b <;> cases d <;> cases r <;> cases x <;>
    simp_all [build_body]

/-- Branch lemma: a turn with no credential appends only the user message and
emits the user's text plus the API-key warning. -/
theorem handle_turn_no_key (t : TurnInput) (msgs : List Message)
    (h : t.api_key = "") :
    handle_turn t msgs =
      (msgs ++ [⟨Role.user, t.prompt⟩],
        [Display.write t.prompt, Display.warning api_key_warning]) := by
  simp [handle_turn, h]

/-- Branch lemma: a turn whose agent construction raises `e` appends only the user
message and emits the user's text plus the construction error display. -/
theorem handle_turn_build_fail (t : TurnInput) (msgs : List Message) (e : String)
    (hk : ¬ t.api_key = "")
    (hb : build_body t.api_key t.model_name t.env = Except.error e) :
    handle_turn t msgs =
      (msgs ++ [⟨Role.user, t.prompt⟩],
        [Display.write t.prompt, Display.error ("Error creating agent: " ++ e)]) := by
  simp [handle_turn, hk, create_agent_of_err _ _ _ _ hb]

/-- Branch lemma: a turn whose invocation returns an `"output"` answer appends the
user message and the assistant answer. -/
theorem handle_turn_answer (t : TurnInput) (msgs : List Message)
    (r : List (String × String)) (ans : String)
    (hk : ¬ t.api_key = "") (hb : build_succeeds t.env = true)
    (hi : t.invoke = InvokeOutcome.returns r) (ho : r.lookup "output" = some ans) :
    handle_turn t msgs =
      (msgs ++ [⟨Role.user, t.prompt⟩, ⟨Role.assistant, ans⟩],
        [Display.write t.prompt, Display.write ans]) := by
  simp [handle_turn, hk, create_agent_of_succeeds _ _ _ hb, hi, ho]

/-- Branch lemma: a turn whose invocation result lacks the `"output"` key appends
only the user message and emits the no-output error display. -/
theorem handle_turn_no_output (t : TurnInput) (msgs : List Message)
    (r : List (String × String))
    (hk : ¬ t.api_key = "") (hb : build_succeeds t.env = true)
    (hi : t.invoke = InvokeOutcome.returns r) (ho : r.lookup "output" = none) :
    handle_turn t msgs =
      (msgs ++ [⟨Role.user, t.prompt⟩],
        [Display.write t.prompt, Display.error no_output_error]) := by
  simp [handle_turn, hk, create_agent_of_succeeds _ _ _ hb, hi, ho]

/-- Branch lemma: a turn whose invocation raises `e` appends the user message and
an assistant message holding the formatted error text; the model-switch warning is
emitted exactly when the deprecation keyword test fires. -/
theorem handle_turn_raises (t : TurnInput) (msgs : List Message) (e : String)
    (hk : ¬ t.api_key = "") (hb : build_succeeds t.env = true)
    (hi : t.invoke = InvokeOutcome.raises e) :
    handle_turn t msgs =
      (msgs ++ [⟨Role.user, t.prompt⟩, ⟨Role.assistant, "An error occurred: " ++ e⟩],
        Display.write t.prompt :: Display.error ("An error occurred: " ++ e) ::
          (if deprecation_keyword e then [Display.warning model_suggestion] else [])) := by
  simp [handle_turn, hk, create_agent_of_succeeds _ _ _ hb, hi]

/-- Claim C1, counterexample: on a concrete turn with no credential, starting from
the seed transcript, the message-sequence length changes (the user message is
appended before the credential check), refuting "the Message sequence length is
unchanged from before the turn". -/
theorem C1_counterexample :
    (handle_turn t_c1 initial_messages).1.length ≠ initial_messages.length := by
  decide

/-- Claim C1 (amended): for every turn dispatched with no credential present, the
Message sequence grows by exactly the user message (no assistant message is
appended), and a warning is shown instead of an error message. -/
theorem C1_no_credential_turn (msgs : List Message) (prompt model : String)
    (env : BuildEnv) (res : InvokeOutcome) :
    handle_turn ⟨prompt, "", model, env, res⟩ msgs =
      (msgs ++ [⟨Role.user, prompt⟩],
        [Display.write prompt, Display.warning api_key_warning]) :=
  handle_turn_no_key ⟨prompt, "", model, env, res⟩ msgs rfl

/-- Claim C2, counterexample: on a concrete turn whose invocation returns a result
lacking the `"output"` key, no assistant message carrying the generic no-output
text is appended — only the user message is appended, and the generic text is shown
as an error display — refuting "an assistant-role message with the fixed generic
no-output text is appended". -/
theorem C2_counterexample :
    (handle_turn t_c2 initial_messages).1 = initial_messages ++ [⟨Role.user, "q2"⟩] ∧
    Message.mk Role.assistant no_output_error ∉ (handle_turn t_c2 initial_messages).1 ∧
    Display.error no_output_error ∈ (handle_turn t_c2 initial_messages).2 := by
  refine ⟨rfl, by decide, by decide⟩

/-- Claim C2 (amended): for every turn in which the agent invocation returns a
result that lacks the answer (`"output"`) field, the fixed generic no-output text
is shown as an error display but no assistant-role message is appended to the
Message sequence — unlike an invocation failure, which does append one. -/
theorem C2_no_output_turn (msgs : List Message) (prompt k m : String)
    (env : BuildEnv) (r : List (String × String))
    (hk : k ≠ "") (hb : build_succeeds env = true) (ho : r.lookup "output" = none) :
    handle_turn ⟨prompt, k, m, env, InvokeOutcome.returns r⟩ msgs =
      (msgs ++ [⟨Role.user, prompt⟩],
        [Display.write prompt, Display.error no_output_error]) :=
  handle_turn_no_output ⟨prompt, k, m, env, InvokeOutcome.returns r⟩ msgs r hk hb rfl ho

/-- Witness for C2: the amended statement instantiated at a concrete turn. -/
theorem C2_witness :
    ("key" : String) ≠ "" ∧
    handle_turn ⟨"q2", "key", "m", env_ok, InvokeOutcome.returns []⟩ initial_messages =
      (initial_messages ++ [⟨Role.user, "q2"⟩],
        [Display.write "q2", Display.error no_output_error]) :=
  ⟨by decide,
    C2_no_output_turn initial_messages "q2" "key" "m" env_ok []
      (by decide) (by decide) rfl⟩

/-- Claim C3, counterexample: on a concrete turn whose invocation raises a
decommission-flavoured failure, the assistant message appended to the sequence is
exactly the formatted error text, which does not contain the model-switch
suggestion — refuting "the assistant-role message appended to the Message sequence
contains both the failure's error text and the model-switch suggestion". -/
theorem C3_counterexample :
    (handle_turn t_c3 initial_messages).1 =
      initial_messages ++
        [⟨Role.user, "q3"⟩,
          ⟨Role.assistant, "An error occurred: model decommissioned"⟩] ∧
    strHas model_suggestion "An error occurred: model decommissioned" = false := by
  refine ⟨rfl, by decide⟩

/-- Claim C3 (amended): for every turn in which the agent invocation raises a
failure whose textual description matches a deprecation-related keyword, the
assistant-role message appended to the Message sequence contains the failure's
error text, and the model-switch suggestion is shown alongside it as a separate
warning display rather than inside the appended message. -/
theorem C3_deprecation_turn (msgs : List Message) (prompt k m e : String)
    (env : BuildEnv) (hk : k ≠ "") (hb : build_succeeds env = true)
    (hd : deprecation_keyword e = true) :
    handle_turn ⟨prompt, k, m, env, InvokeOutcome.raises e⟩ msgs =
      (msgs ++ [⟨Role.user, prompt⟩, ⟨Role.assistant, "An error occurred: " ++ e⟩],
        [Display.write prompt, Display.error ("An error occurred: " ++ e),
          Display.warning model_suggestion]) := by
  rw [handle_turn_raises ⟨prompt, k, m, env, InvokeOutcome.raises e⟩ msgs e hk hb rfl]
  simp [hd]

/-- Witness for C3: the amended statement instantiated at a concrete turn. -/
theorem C3_witness :
    deprecation_keyword "model decommissioned" = true ∧
    handle_turn ⟨"q3", "key", "m", env_ok, InvokeOutcome.raises "model decommissioned"⟩
        initial_messages =
      (initial_messages ++
        [⟨Role.user, "q3"⟩,
          ⟨Role.assistant, "An error occurred: model decommissioned"⟩],
        [Display.write "q3",
          Display.error "An error occurred: model decommissioned",
          Display.warning model_suggestion]) :=
  ⟨by decide,
    C3_deprecation_turn initial_messages "q3" "key" "m" "model decommissioned" env_ok
      (by decide) (by decide) (by decide)⟩

/-- Claim C4, counterexample: applying the manual reset to the seed transcript does
not return the seed transcript — the reset greeting text differs from the greeting
the sequence is initialized with at session start — refuting "sets the sequence to
exactly one message: the assistant-role seed greeting that the sequence is
initialized with at session start". -/
theorem C4_counterexample :
    clear_chat_history initial_messages ≠ initial_messages := by
  decide

/-- Claim C4 (amended): for every prior Message sequence of any length, the manual
reset sets the sequence to exactly one assistant-role greeting message, but that
greeting's text differs from the seed greeting installed at session start. -/
theorem C4_reset_turn (msgs : List Message) :
    clear_chat_history msgs =
      [⟨Role.assistant,
        "Hi, I'm a knowledge assistant who can search Wikipedia and Arxiv. How can I help you?"⟩] ∧
    (clear_chat_history msgs).length = 1 ∧
    clear_chat_history msgs ≠ initial_messages := by
  refine ⟨rfl, rfl, ?_⟩
  show clear_messages ≠ initial_messages
  decide

/-- A successful `build_body` implies every construction step succeeded. -/
theorem build_succeeds_of_ok (k m : String) (env : BuildEnv)
    (c : AgentExecutorConfig) (h : build_body k m env = Except.ok c) :
    build_succeeds env = true := by
  obtain ⟨a, b, d, r, x⟩ := env
  cases a <;> cases b <;> cases d <;> cases r <;> cases x <;>
    simp_all [build_body, build_succeeds]

/-- Step lemma: a turn whose invocation returns an answer or raises appends exactly
the user message and one assistant reply. -/
theorem handle_turn_completes (t : TurnInput) (msgs : List Message)
    (h : completes_with_message t = true) :
    ∃ reply : Message,
      (handle_turn t msgs).1 = msgs ++ [⟨Role.user, t.prompt⟩, reply] := by
  unfold completes_with_message at h
  rw [Bool.and_eq_true, Bool.and_eq_true] at h
  obtain ⟨⟨hk', hb⟩, hrest⟩ := h
  have hk : ¬ t.api_key = "" := by simpa using hk'
  cases hi : t.invoke with
  | returns r =>
    simp only [hi] at hrest
    obtain ⟨ans, ho⟩ := Option.isSome_iff_exists.mp hrest
    exact ⟨⟨Role.assistant, ans⟩,
      by rw [handle_turn_answer t msgs r ans hk hb hi ho]⟩
  | raises e =>
    exact ⟨⟨Role.assistant, "An error occurred: " ++ e⟩,
      by rw [handle_turn_raises t msgs e hk hb hi]⟩

/-- Folding any list of answer-or-exception turns appends exactly two messages per
turn, preserving the prior transcript as a prefix. -/
theorem run_turns_completes (ts : List TurnInput) :
    ∀ msgs : List Message, (∀ t ∈ ts, completes_with_message t = true) →
      ∃ suffix : List Message,
        run_turns ts msgs = msgs ++ suffix ∧ suffix.length = 2 * ts.length := by
  induction ts with
  | nil =>
    intro msgs _
    exact ⟨[], by simp [run_turns]⟩
  | cons t rest ih =>
    intro msgs h
    obtain ⟨reply, hstep⟩ :=
      handle_turn_completes t msgs (h t (List.mem_cons_self t rest))
    obtain ⟨suffix, hs, hl⟩ :=
      ih (msgs ++ [⟨Role.user, t.prompt⟩, reply])
        (fun t' ht' => h t' (List.mem_cons_of_mem t ht'))
    refine ⟨⟨Role.user, t.prompt⟩ :: reply :: suffix, ?_, ?_⟩
    · show run_turns rest (handle_turn t msgs).1 = _
      rw [hstep, hs]
      simp
    · simp only [List.length_cons, hl]
      omega

/-- Claim C5, counterexample: a single completed turn that produces an error (the
invocation result lacks the `"output"` key, so the no-output error is displayed)
starting from the seed transcript leaves the Message sequence at length 2, not
`1 + 2·1 = 3` — the user message is appended but no assistant placeholder is. -/
theorem C5_counterexample :
    Display.error no_output_error ∈ (handle_turn t_c5 initial_messages).2 ∧
    (run_turns [t_c5] initial_messages).length ≠ 1 + 2 * 1 := by
  refine ⟨by decide, by decide⟩

/-- Claim C5 (amended): for every sequence of N completed turns starting from the
seed transcript, where each turn's invocation either returns an answer or raises an
exception, the Message sequence length afterwards equals `1 + 2N`, and every prior
transcript is preserved as an unchanged prefix (no entry lost or reordered). Turns
whose invocation returns without an `"output"` field, or whose agent construction
fails, append only the user message and are excluded. -/
theorem C5_completed_turns (ts : List TurnInput)
    (h : ∀ t ∈ ts, completes_with_message t = true) :
    (∀ msgs : List Message, ∃ suffix : List Message,
      run_turns ts msgs = msgs ++ suffix ∧ suffix.length = 2 * ts.length) ∧
    (run_turns ts initial_messages).length = 1 + 2 * ts.length := by
  refine ⟨fun msgs => run_turns_completes ts msgs h, ?_⟩
  obtain ⟨suffix, hs, hl⟩ := run_turns_completes ts initial_messages h
  rw [hs, List.length_append, hl]
  rfl

/-- Witness for C5: one concrete answered turn, giving length `1 + 2·1`. -/
theorem C5_witness :
    (∀ t ∈ [t_c5b], completes_with_message t = true) ∧
    (run_turns [t_c5b] initial_messages).length = 1 + 2 * 1 := by
  have h : ∀ t ∈ [t_c5b], completes_with_message t = true := by decide
  exact ⟨h, (C5_completed_turns [t_c5b] h).2⟩

/-- Claim C6: for every credential and model identifier, an agent successfully
constructed by `create_agent` is configured with streaming (incremental) output,
temperature 1/10, an iteration cap of 5, and `handle_parsing_errors` enabled. -/
theorem C6_agent_configuration (k m : String) (env : BuildEnv)
    (cfg : AgentExecutorConfig) (h : (create_agent k m env).1 = some cfg) :
    cfg.agent.llm.streaming = true ∧ cfg.agent.llm.temperature = 1/10 ∧
      cfg.max_iterations = 5 ∧ cfg.handle_parsing_errors = true := by
  unfold create_agent at h
  cases hb : build_body k m env with
  | ok c =>
    rw [hb] at h
    simp only at h
    injection h with h'
    subst h'
    rw [build_body_ok_eq k m env c hb]
    exact ⟨rfl, rfl, rfl, rfl⟩
  | error e =>
    rw [hb] at h
    simp at h

/-- Witness for C6: the configuration built in the all-successful environment. -/
theorem C6_witness :
    (create_agent "key" "model" env_ok).1 = some (built_config "key" "model") ∧
    ((built_config "key" "model").agent.llm.streaming = true ∧
      (built_config "key" "model").agent.llm.temperature = 1/10 ∧
      (built_config "key" "model").max_iterations = 5 ∧
      (built_config "key" "model").handle_parsing_errors = true) :=
  ⟨rfl, C6_agent_configuration "key" "model" env_ok (built_config "key" "model") rfl⟩

/-- Claim C7: `initialize_tools` returns the ordered two-element tool list — the
Arxiv (academic-paper) tool then the Wikipedia (encyclopedia) tool — each with a
result-count cap of 1 and a content-length cap of 200 characters. -/
theorem C7_initialize_tools_spec :
    initialize_tools =
      [{ backend := ToolBackend.arxiv,
         api_wrapper := { top_k_results := 1, doc_content_chars_max := 200 } },
       { backend := ToolBackend.wikipedia,
         api_wrapper := { top_k_results := 1, doc_content_chars_max := 200 } }] ∧
    initialize_tools.length = 2 :=
  ⟨rfl, rfl⟩

/-- Claim C8: for every credential, model identifier and construction environment,
`create_agent` returns a value rather than propagating an exception — either an
agent with no display, or a Failure (`none`) with the construction error displayed;
in the Failure case the caller appends no assistant message that turn. -/
theorem C8_create_agent_total (k m : String) (env : BuildEnv) (hk : k ≠ "") :
    (∃ cfg, create_agent k m env = (some cfg, [])) ∨
    (∃ e, create_agent k m env =
        (none, [Display.error ("Error creating agent: " ++ e)]) ∧
      ∀ (prompt : String) (res : InvokeOutcome) (msgs : List Message),
        (handle_turn ⟨prompt, k, m, env, res⟩ msgs).1 =
          msgs ++ [⟨Role.user, prompt⟩]) := by
  cases build_body_cases k m env with
  | inl hok =>
    exact Or.inl ⟨built_config k m, by unfold create_agent; rw [hok]⟩
  | inr herr =>
    obtain ⟨e, he⟩ := herr
    refine Or.inr ⟨e, create_agent_of_err k m env e he, ?_⟩
    intro prompt res msgs
    rw [handle_turn_build_fail ⟨prompt, k, m, env, res⟩ msgs e hk he]

/-- Witness for C8: a concrete environment whose first construction step raises. -/
theorem C8_witness :
    ("key" : String) ≠ "" ∧
    ((∃ cfg, create_agent "key" "m" env_chatgroq_fail = (some cfg, [])) ∨
      (∃ e, create_agent "key" "m" env_chatgroq_fail =
          (none, [Display.error ("Error creating agent: " ++ e)]) ∧
        ∀ (prompt : String) (res : InvokeOutcome) (msgs : List Message),
          (handle_turn ⟨prompt, "key", "m", env_chatgroq_fail, res⟩ msgs).1 =
            msgs ++ [⟨Role.user, prompt⟩])) :=
  ⟨by decide, C8_create_agent_total "key" "m" env_chatgroq_fail (by decide)⟩

/-- Claim C9, counterexample: on a concrete turn whose agent construction fails,
the construction error is displayed but its error text is not appended to the
Message sequence — refuting "a construction failure is treated as a Failed turn
whose error text is appended to the Message sequence". -/
theorem C9_counterexample :
    (handle_turn t_c9 initial_messages).1 =
      initial_messages ++ [⟨Role.user, "q9"⟩] ∧
    Display.error "Error creating agent: boom" ∈ (handle_turn t_c9 initial_messages).2 ∧
    Message.mk Role.assistant "Error creating agent: boom" ∉
      (handle_turn t_c9 initial_messages).1 := by
  refine ⟨by decide, by decide, by decide⟩

/-- Claim C9 (amended): every turn that does not end in a genuine answer surfaces
its failure as a pre-dispatch warning or a displayed error, and invocation
exceptions append the error text to the Message sequence as the assistant's reply;
but a construction failure only displays its error — the turn appends nothing
beyond the user message. -/
theorem C9_failures_surfaced (t : TurnInput) (msgs : List Message)
    (h : turn_answers t = false) :
    ((∃ s, Display.warning s ∈ (handle_turn t msgs).2) ∨
      (∃ s, Display.error s ∈ (handle_turn t msgs).2)) ∧
    ((create_agent t.api_key t.model_name t.env).1 = none →
      (handle_turn t msgs).1 = msgs ++ [⟨Role.user, t.prompt⟩]) := by
  by_cases hk : t.api_key = ""
  · rw [handle_turn_no_key t msgs hk]
    exact ⟨Or.inl ⟨api_key_warning, by simp⟩, fun _ => rfl⟩
  · cases build_body_cases t.api_key t.model_name t.env with
    | inr herr =>
      obtain ⟨e, he⟩ := herr
      rw [handle_turn_build_fail t msgs e hk he]
      exact ⟨Or.inr ⟨"Error creating agent: " ++ e, by simp⟩, fun _ => rfl⟩
    | inl hok =>
      have hb : build_succeeds t.env = true :=
        build_succeeds_of_ok t.api_key t.model_name t.env _ hok
      cases hi : t.invoke with
      | returns r =>
        cases ho : r.lookup "output" with
        | some ans =>
          exfalso
          have ht : turn_answers t = true := by
            unfold turn_answers
            rw [hi]
            simp [hb, ho, hk, bne_iff_ne]
          rw [ht] at h
          cases h
        | none =>
          rw [handle_turn_no_output t msgs r hk hb hi ho]
          exact ⟨Or.inr ⟨no_output_error, by simp⟩, fun _ => rfl⟩
      | raises e =>
        rw [handle_turn_raises t msgs e hk hb hi]
        refine ⟨Or.inr ⟨"An error occurred: " ++ e, by simp⟩, ?_⟩
        intro hc
        rw [create_agent_of_succeeds t.api_key t.model_name t.env hb] at hc
        simp at hc

/-- Witness for C9: the construction-failure turn `t_c9`. -/
theorem C9_witness :
    turn_answers t_c9 = false ∧
    (((∃ s, Display.warning s ∈ (handle_turn t_c9 initial_messages).2) ∨
       (∃ s, Display.error s ∈ (handle_turn t_c9 initial_messages).2)) ∧
      ((create_agent t_c9.api_key t_c9.model_name t_c9.env).1 = none →
        (handle_turn t_c9 initial_messages).1 =
          initial_messages ++ [⟨Role.user, t_c9.prompt⟩])) :=
  ⟨by decide, C9_failures_surfaced t_c9 initial_messages (by decide)⟩

/-- Claim C10: for every turn in which the agent invocation raises an exception
with text `e`, the assistant-role message appended to the Message sequence is
exactly the string `"An error occurred: "` followed by `e`. -/
theorem C10_exception_format (msgs : List Message) (prompt k m e : String)
    (env : BuildEnv) (hk : k ≠ "") (hb : build_succeeds env = true) :
    (handle_turn ⟨prompt, k, m, env, InvokeOutcome.raises e⟩ msgs).1 =
      msgs ++ [⟨Role.user, prompt⟩, ⟨Role.assistant, "An error occurred: " ++ e⟩] := by
  rw [handle_turn_raises ⟨prompt, k, m, env, InvokeOutcome.raises e⟩ msgs e hk hb rfl]

/-- Witness for C10: the exception `"boom"` on a concrete turn. -/
theorem C10_witness :
    ("key" : String) ≠ "" ∧
    (handle_turn ⟨"q10", "key", "m", env_ok, InvokeOutcome.raises "boom"⟩
        initial_messages).1 =
      initial_messages ++
        [⟨Role.user, "q10"⟩, ⟨Role.assistant, "An error occurred: " ++ "boom"⟩] :=
  ⟨by decide,
    C10_exception_format initial_messages "q10" "key" "m" "boom" env_ok
      (by decide) (by decide)⟩

end App

